import Mathlib

/-!
Shallow embedding of `src/webhook.py` (steppabot/bubuwebhook): a Flask
webhook that mirrors Stripe subscription events into a Postgres database
and maintains a derived per-user tier (`premium`/`free`).

Modelling conventions:
* Each Postgres table is a Lean list of row structures; SQL `INSERT ... ON
  CONFLICT DO UPDATE` is replace-in-place (or append when the key is new),
  `UPDATE ... WHERE` maps over the list, `ON CONFLICT DO NOTHING` is a
  keyed membership test.
* Every DB helper in the source opens its own connection via `get_db()`
  and commits on exit of its `with` block, so each helper is its own
  transaction.  A Python exception escaping mid-handler therefore leaves
  all already-committed helper writes in place; this is modelled by
  `PyResult`, which carries the database state out of both normal returns
  and exceptions.
* External collaborators (the Stripe API, Discord HTTP calls, the support
  webhook) are parameters or are dropped when they never touch the
  database (`patch_interaction_original`, `post_support`,
  `find_checkout_mapping` only reads `premium_checkout_sessions`, a table
  that feeds the Discord notification and no claim).
* `NOW()` / `datetime.now(timezone.utc)` is an explicit `now : Int`
  parameter (epoch seconds); timestamps are `Int` epoch seconds.
* Python truthiness (`if cpe`, `if not user_id`, `explicit_user_id or
  ...`) is modelled explicitly (`truthy`, `truthyInt`, `pyOrInt`).
-/

namespace BubuWebhook

/-- A JSON-ish scalar as it reaches the timestamp / user-id fields:
`null`/absent, a number, or a string. -/
inductive JVal where
  | null
  | num (n : Int)
  | str (s : String)
deriving DecidableEq, Repr

/-- Python truthiness of a `JVal` (`if cpe:` …): `None`, `0` and `""` are
falsy. -/
def truthy : JVal → Bool
  | .null => false
  | .num n => !(n == 0)
  | .str s => !(s == "")

/-- Models `datetime.fromtimestamp(v, tz=timezone.utc)`: defined on numbers,
raises `TypeError` on a string (and on `None`). -/
def fromtimestamp : JVal → Except String Int
  | .num n => .ok n
  | .str _ => .error "TypeError: fromtimestamp expects a number, got str"
  | .null => .error "TypeError: fromtimestamp expects a number, got None"

/-- Models `datetime.fromtimestamp(v, tz=timezone.utc) if v else None`
(webhook.py lines 71-72 and 153). -/
def parse_ts (v : JVal) : Except String (Option Int) :=
  if truthy v then (fromtimestamp v).map some else .ok none

/-- Embeds `safe_int` (webhook.py lines 199-203): `int(v)` with every failure
mapped to `None`. -/
def safe_int : JVal → Option Int
  | .null => none
  | .num n => some n
  | .str s => s.toInt?

/-- Python `x or y` on an optional integer (`explicit_user_id or
safe_int(...)`, line 169): `None` and `0` fall through to `y`. -/
def pyOrInt : Option Int → Option Int → Option Int
  | some n, y => if n == 0 then y else some n
  | none, y => y

/-- Python truthiness of an optional integer (`if not user_id:` /
`if user_id:`). -/
def truthyInt : Option Int → Bool
  | some n => !(n == 0)
  | none => false

/-- The `data.object` of an inbound event, restricted to the fields the
handler reads: `id`, `mode`, `subscription`, `client_reference_id`. -/
structure EvObj where
  objId : Option String := none
  mode : Option String := none
  subscription : Option String := none
  client_reference_id : JVal := .null
deriving DecidableEq, Repr

/-- A row of `stripe_webhook_events` (dedup ledger). -/
structure EventRow where
  event_id : String
  event_type : String
  payload : EvObj
  processed_at : Option Int
deriving DecidableEq, Repr

/-- A row of `stripe_subscriptions`. -/
structure SubRow where
  subscription_id : String
  user_id : Int
  price_id : Option String
  status : Option String
  current_period_start : Option Int
  current_period_end : Option Int
  cancel_at_period_end : Bool
deriving DecidableEq, Repr

/-- A row of `users` (the derived tier state). -/
structure UserRow where
  user_id : Int
  tier : String
  premium_until : Option Int
deriving DecidableEq, Repr

/-- A row of `premium_audit`. -/
structure AuditRow where
  user_id : Int
  action : String
  source : String
deriving DecidableEq, Repr

/-- The database: the four tables the handler writes. -/
structure DB where
  events : List EventRow
  customers : List (Int × String)
  subs : List SubRow
  users : List UserRow
  audit : List AuditRow
deriving DecidableEq, Repr

/-- The empty database. -/
def DB.empty : DB := ⟨[], [], [], [], []⟩

/-- Result of running a Python block that writes through per-call
connections: on an exception the already-committed writes survive, so
both constructors carry the database. -/
inductive PyResult (α : Type) where
  | ok (db : DB) (a : α)
  | exn (db : DB) (msg : String)
deriving DecidableEq, Repr

/-- The database state carried out of a `PyResult` (committed writes
survive an exception). -/
def PyResult.db {α : Type} : PyResult α → DB
  | .ok db _ => db
  | .exn db _ => db

/-- The `PREMIUM_PRICE_ID` environment configuration, an abstract constant. -/
def PREMIUM_PRICE_ID : String := "price_premium"

/-- Embeds `upsert_event` (lines 31-42): conditional insert into
`stripe_webhook_events` keyed on `event_id`; returns `true` iff the event
is new. -/
def upsert_event (db : DB) (event_id event_type : String) (payload : EvObj) :
    DB × Bool :=
  if db.events.any (·.event_id == event_id) then (db, false)
  else ({db with events := db.events ++
          [{event_id := event_id, event_type := event_type,
            payload := payload, processed_at := none}]}, true)

/-- Embeds `mark_event_processed` (lines 44-46): `UPDATE stripe_webhook_events
SET processed_at = NOW() WHERE event_id = ...`. -/
def mark_event_processed (db : DB) (event_id : String) (now : Int) : DB :=
  {db with events := db.events.map (fun r =>
    if r.event_id == event_id then {r with processed_at := some now} else r)}

/-- Embeds `upsert_stripe_customer` (lines 48-54): upsert keyed on `user_id`. -/
def upsert_stripe_customer (db : DB) (user_id : Int) (customer_id : String) : DB :=
  if db.customers.any (·.1 == user_id) then
    {db with customers := db.customers.map (fun p =>
      if p.1 == user_id then (user_id, customer_id) else p)}
  else {db with customers := db.customers ++ [(user_id, customer_id)]}

/-- The SQL of `upsert_stripe_subscription`: full-row upsert keyed on
`subscription_id`. -/
def upsert_sub_row (db : DB) (row : SubRow) : DB :=
  if db.subs.any (·.subscription_id == row.subscription_id) then
    {db with subs := db.subs.map (fun r =>
      if r.subscription_id == row.subscription_id then row else r)}
  else {db with subs := db.subs ++ [row]}

/-- A Stripe subscription object as returned by
`stripe.Subscription.retrieve`, restricted to the fields the handler
reads.  `priceId` is `items.data[0].price.id` (already `None` when
`items.data` is empty); `metaUserId` is `metadata.user_id`. -/
structure SubObj where
  id : String
  status : Option String
  current_period_start : JVal
  current_period_end : JVal
  cancel_at_period_end : Bool
  priceId : Option String
  metaUserId : JVal
  customer : Option String
deriving DecidableEq, Repr

/-- Embeds `upsert_stripe_subscription` (lines 56-88): parse the period bounds
(`fromtimestamp` may raise on a non-numeric value), then upsert the row. -/
def upsert_stripe_subscription (db : DB) (user_id : Int) (sub : SubObj) :
    PyResult Unit :=
  match parse_ts sub.current_period_end with
  | .error m => .exn db m
  | .ok cpe_dt =>
    match parse_ts sub.current_period_start with
    | .error m => .exn db m
    | .ok cps_dt =>
      .ok (upsert_sub_row db
            {subscription_id := sub.id, user_id := user_id,
             price_id := sub.priceId, status := sub.status,
             current_period_start := cps_dt, current_period_end := cpe_dt,
             cancel_at_period_end := sub.cancel_at_period_end}) ()

/-- Embeds `ensure_user` (lines 90-95): `INSERT INTO users (user_id) ... ON
CONFLICT DO NOTHING` (schema defaults: tier `free`, no expiry). -/
def ensure_user (db : DB) (user_id : Int) : DB :=
  if db.users.any (·.user_id == user_id) then db
  else {db with users := db.users ++
        [{user_id := user_id, tier := "free", premium_until := none}]}

/-- Embeds `set_premium` (lines 97-111): ensure the user row, replace a `None`
expiry by `NOW()`, set tier `premium`, append an audit row. -/
def set_premium (db : DB) (user_id : Int) (until_ : Option Int) (now : Int)
    (source action : String) : DB :=
  let db1 := ensure_user db user_id
  let u := until_.getD now
  let db2 : DB := {db1 with users := db1.users.map (fun r =>
    if r.user_id == user_id then
      {r with tier := "premium", premium_until := some u} else r)}
  {db2 with audit := db2.audit ++
    [{user_id := user_id, action := action, source := source}]}

/-- Embeds `set_free` (lines 113-123): set tier `free` and null expiry on the
existing user row (no insert), append a `revoke` audit row. -/
def set_free (db : DB) (user_id : Int) (source _reason : String) : DB :=
  let db1 : DB := {db with users := db.users.map (fun r =>
    if r.user_id == user_id then
      {r with tier := "free", premium_until := none} else r)}
  {db1 with audit := db1.audit ++
    [{user_id := user_id, action := "revoke", source := source}]}

/-- The tier stored for a user (`none` when the user has no row). -/
def userTier (db : DB) (uid : Int) : Option String :=
  (db.users.find? (·.user_id == uid)).map (·.tier)

/-- The `premium_until` stored for a user (`none` when the user has no
row). -/
def userUntil (db : DB) (uid : Int) : Option (Option Int) :=
  (db.users.find? (·.user_id == uid)).map (·.premium_until)

/-- Modelled from the spec: `hasActiveEntitlement(user_id)` — "does this
user own ≥ 1 row with `status = active` and (`ends_at` null or `ends_at`
> now)?" (spec §4.3).  The source has no such function; this predicate
exists only to state claims C1/C5 about demotion conditionality, over the
`stripe_subscriptions` rows that play the entitlement role here. -/
def spec_hasActiveEntitlement (db : DB) (uid : Int) (now : Int) : Bool :=
  db.subs.any (fun r => r.user_id == uid && r.status == some "active" &&
    (match r.current_period_end with
     | none => true
     | some t => decide (now < t)))

/-- The customer-mirror step of `sync_user_from_subscription` (lines
182-186): `cust_id` is already unwrapped to a string; a falsy (empty)
id skips the upsert. -/
def mirror_customer (db : DB) (uid : Int) (c? : Option String) : DB :=
  match c? with
  | some c => if c = "" then db else upsert_stripe_customer db uid c
  | none => db

/-- User-id resolution inside `sync_user_from_subscription` (lines
167-175): prefer `explicit_user_id` (Python `or`, so `0` falls through),
then `metadata.user_id`, then the stored `stripe_subscriptions` row. -/
def resolve_user_id (db : DB) (explicit_user_id : Option Int) (meta : JVal)
    (sid : String) : Option Int :=
  match pyOrInt explicit_user_id (safe_int meta) with
  | some x => some x
  | none => (db.subs.find? (·.subscription_id == sid)).map (·.user_id)

/-- Embeds `sync_user_from_subscription` (lines 145-197).  `stripe` is the
external `stripe.Subscription.retrieve` capability (`none` = the API call
raised); `sub_id = none` models `retrieve(None)` raising. -/
def sync_user_from_subscription (stripe : String → Option SubObj) (db : DB)
    (now : Int) (sub_id : Option String) (explicit_user_id : Option Int) :
    PyResult (Option Int) :=
  match sub_id with
  | none => .exn db "InvalidRequestError: retrieve(None)"
  | some sid =>
    match stripe sid with
    | none => .exn db "StripeError: retrieve failed"
    | some sub =>
      -- line 153: `until = datetime.fromtimestamp(cpe, tz=utc) if cpe else None`
      match parse_ts sub.current_period_end with
      | .error m => .exn db m
      | .ok until_ =>
        -- line 163: only handle our premium price
        if sub.priceId ≠ some PREMIUM_PRICE_ID then .ok db none
        else
          match resolve_user_id db explicit_user_id sub.metaUserId sid with
          | none => .ok db none
          | some uid =>
            -- lines 182-189: mirror customer (skipped on falsy cust_id),
            -- then mirror the subscription row (may raise on cps parse)
            match upsert_stripe_subscription
                (mirror_customer db uid sub.customer) uid sub with
            | .exn db2 m => .exn db2 m
            | .ok db2 _ =>
              -- lines 192-196: promote only on trialing/active
              if sub.status = some "trialing" ∨ sub.status = some "active" then
                .ok (set_premium db2 uid until_ now "stripe" "sync") (some uid)
              else .ok db2 (some uid)

/-- A constructed (signature-verified) event. -/
structure Event where
  id : String
  type : String
  obj : EvObj
deriving DecidableEq, Repr

/-- The two failure modes of `stripe.Webhook.construct_event` the handler
catches: `ValueError` (unparseable payload) and
`SignatureVerificationError`. -/
inductive ConstructErr where
  | valueError
  | sigError
deriving DecidableEq, Repr

/-- HTTP responses of the route: the two 400 rejections, the dedup
acknowledgment `{ok, dedup}`, the plain `{ok}` acknowledgment, and the
500 produced by an exception escaping the handler. -/
inductive Resp where
  | invalidPayload
  | invalidSignature
  | okDedup
  | okAck
  | serverError
deriving DecidableEq, Repr

/-- The shape `user_id = sync_user_from_subscription(...)` with the id
unused: the common shape of the checkout, invoice, and update arms. -/
def wrap_sync (stripe : String → Option SubObj) (db : DB) (now : Int)
    (sub_id : Option String) (eu : Option Int) : PyResult Unit :=
  match sync_user_from_subscription stripe db now sub_id eu with
  | .exn db2 m => .exn db2 m
  | .ok db2 _ => .ok db2 ()

/-- The best-effort price lookup of the checkout arm (lines 246-253):
`stripe.Subscription.retrieve` in a `try/except` that swallows failures,
leaving `price_id = None`. -/
def checkout_price_id (stripe : String → Option SubObj)
    (sub_id : Option String) : Option String :=
  match sub_id with
  | none => none
  | some s =>
    match stripe s with
    | none => none
    | some sub => sub.priceId

/-- The `customer.subscription.updated` arm (lines 300-303): mirror rows
and tier via `sync_user_from_subscription`; the returned user id is
unused. -/
def handle_subscription_updated (stripe : String → Option SubObj) (db : DB)
    (now : Int) (objId : Option String) : PyResult Unit :=
  wrap_sync stripe db now objId none

/-- Lines 310-316 of the deleted arm: keep sync's user id when truthy,
else look up the stored `stripe_subscriptions` row; the caller acts only
on a truthy result. -/
def fallback_uid (db : DB) (objId : Option String) (uid0 : Option Int) :
    Option Int :=
  let uid1 := if truthyInt uid0 then uid0 else
    match objId with
    | none => none
    | some sid => (db.subs.find? (·.subscription_id == sid)).map (·.user_id)
  if truthyInt uid1 then uid1 else none

/-- The `customer.subscription.deleted` arm (lines 306-318): final state
mirror via sync, fallback user-id lookup in `stripe_subscriptions` when
sync returned a falsy id, then an unconditional `set_free`. -/
def handle_subscription_deleted (stripe : String → Option SubObj) (db : DB)
    (now : Int) (objId : Option String) : PyResult Unit :=
  match sync_user_from_subscription stripe db now objId none with
  | .exn db2 m => .exn db2 m
  | .ok db2 uid0 =>
    match fallback_uid db2 objId uid0 with
    | some u => .ok (set_free db2 u "stripe" "subscription_deleted") ()
    | none => .ok db2 ()

/-- The event-type dispatch inside the `try` block of `stripe_webhook`
(lines 236-318).  Stripe/Discord HTTP side effects that never touch the
database are dropped. -/
def process_event (stripe : String → Option SubObj) (db : DB) (now : Int)
    (ev : Event) : PyResult Unit :=
  if ev.type = "checkout.session.completed" then
    if ev.obj.mode = some "subscription" then
      -- lines 255-257: early `return jsonify(ok=True)` on a non-premium price
      if checkout_price_id stripe ev.obj.subscription ≠ some PREMIUM_PRICE_ID
      then .ok db ()
      else wrap_sync stripe db now ev.obj.subscription
        (safe_int ev.obj.client_reference_id)
    else .ok db ()
  else if ev.type = "invoice.payment_succeeded" then
    match ev.obj.subscription with
    | some s => if s = "" then .ok db () else wrap_sync stripe db now (some s) none
    | none => .ok db ()
  else if ev.type = "invoice.payment_failed" then
    match ev.obj.subscription with
    | some s => if s = "" then .ok db () else wrap_sync stripe db now (some s) none
    | none => .ok db ()
  else if ev.type = "customer.subscription.updated" then
    handle_subscription_updated stripe db now ev.obj.objId
  else if ev.type = "customer.subscription.deleted" then
    handle_subscription_deleted stripe db now ev.obj.objId
  else .ok db ()

/-- Embeds `stripe_webhook` (lines 216-323): signature construction, dedup gate,
event dispatch under `try`, and the `finally:` completion stamp that runs
on success and failure alike. -/
def stripe_webhook (stripe : String → Option SubObj) (db : DB) (now : Int)
    (constructed : Except ConstructErr Event) : DB × Resp :=
  match constructed with
  | .error .valueError => (db, .invalidPayload)
  | .error .sigError => (db, .invalidSignature)
  | .ok ev =>
    match upsert_event db ev.id ev.type ev.obj with
    | (db1, false) => (db1, .okDedup)
    | (db1, true) =>
      match process_event stripe db1 now ev with
      | .ok db2 _ => (mark_event_processed db2 ev.id now, .okAck)
      | .exn db2 _ => (mark_event_processed db2 ev.id now, .serverError)

/-- The user id the `customer.subscription.deleted` branch resolves and
acts on (lines 306-316), projected out of the branch for use in claim
statements: `none` when the branch raises or resolves no truthy id. -/
def deleted_resolved_uid (stripe : String → Option SubObj) (db : DB)
    (now : Int) (objId : Option String) : Option Int :=
  match sync_user_from_subscription stripe db now objId none with
  | .exn _ _ => none
  | .ok db2 uid0 => fallback_uid db2 objId uid0

/-! ### Concrete fixtures used by counterexamples and witnesses -/

/-- A premium-price subscription object, active, period end 2000. -/
def sub_act : SubObj where
  id := "sC2"
  status := some "active"
  current_period_start := .num 10
  current_period_end := .num 2000
  cancel_at_period_end := false
  priceId := some "price_premium"
  metaUserId := .num 7
  customer := some "cus_1"

def st_act : String → Option SubObj := fun s =>
  if s == "sC2" then some sub_act else none

/-- Active premium subscription whose `current_period_end` is null. -/
def sub_nullcpe : SubObj := {sub_act with id := "sC2n", current_period_end := .null}

def st_nullcpe : String → Option SubObj := fun s =>
  if s == "sC2n" then some sub_nullcpe else none

def ev_nullcpe : Event :=
  {id := "evt_c2", type := "customer.subscription.updated",
   obj := {objId := some "sC2n"}}

/-- Subscription whose `current_period_start` is a non-numeric string:
`datetime.fromtimestamp` raises mid-processing. -/
def sub_badcps : SubObj :=
  {sub_act with id := "sC3", current_period_start := .str "bad"}

def st_badcps : String → Option SubObj := fun s =>
  if s == "sC3" then some sub_badcps else none

def ev_badcps : Event :=
  {id := "evt_c3", type := "customer.subscription.updated",
   obj := {objId := some "sC3"}}

def ev_badcps6 : Event :=
  {id := "evt_c6", type := "customer.subscription.updated",
   obj := {objId := some "sC3"}}

/-- Canceled premium subscription `s1` of user 7 (for the deleted event). -/
def sub_c1 : SubObj where
  id := "s1"
  status := some "canceled"
  current_period_start := .null
  current_period_end := .null
  cancel_at_period_end := false
  priceId := some "price_premium"
  metaUserId := .num 7
  customer := none

def st_c1 : String → Option SubObj := fun s =>
  if s == "s1" then some sub_c1 else none

def row_s1 : SubRow where
  subscription_id := "s1"
  user_id := 7
  price_id := some "price_premium"
  status := some "active"
  current_period_start := none
  current_period_end := some 5000
  cancel_at_period_end := false

def row_s2 : SubRow := { row_s1 with
  subscription_id := "s2"
  current_period_end := some 9000 }

/-- User 7 holds two active entitlements (`s1`, `s2`) and is premium. -/
def db_c1 : DB := { DB.empty with
  subs := [row_s1, row_s2]
  users := [{user_id := 7, tier := "premium", premium_until := some 9000}] }

def ev_c1 : Event :=
  {id := "evt_c1", type := "customer.subscription.deleted",
   obj := {objId := some "s1"}}

/-- Single active subscription of user 7 (for the revoked-update case). -/
def sub_c5 : SubObj where
  id := "sC5"
  status := some "canceled"
  current_period_start := .null
  current_period_end := .num 5000
  cancel_at_period_end := false
  priceId := some "price_premium"
  metaUserId := .num 7
  customer := none

def st_c5 : String → Option SubObj := fun s =>
  if s == "sC5" then some sub_c5 else none

def row_c5 : SubRow := {row_s1 with subscription_id := "sC5"}

def db_c5 : DB := { DB.empty with
  subs := [row_c5]
  users := [{user_id := 7, tier := "premium", premium_until := some 5000}] }

def ev_c5 : Event :=
  {id := "evt_c5", type := "customer.subscription.updated",
   obj := {objId := some "sC5"}}

/-- Canceled premium subscription whose payload/metadata carries no user
id at all. -/
def sub_c9 : SubObj := {sub_c1 with id := "sC9", metaUserId := .null}

def st_c9 : String → Option SubObj := fun s =>
  if s == "sC9" then some sub_c9 else none

def row_c9 : SubRow := {row_s1 with subscription_id := "sC9"}

def db_c9 : DB := { DB.empty with
  subs := [row_c9]
  users := [{user_id := 7, tier := "premium", premium_until := some 5000}] }

def ev_c9 : Event :=
  {id := "evt_c9", type := "customer.subscription.deleted",
   obj := {objId := some "sC9"}}

/-- A subscription whose current price is not the premium price. -/
def sub_c10 : SubObj := { sub_c1 with
  id := "sC10"
  metaUserId := .null
  priceId := some "price_other" }

def st_c10 : String → Option SubObj := fun s =>
  if s == "sC10" then some sub_c10 else none

def row_c10 : SubRow := {row_s1 with subscription_id := "sC10"}

def db_c10 : DB := { DB.empty with
  subs := [row_c10]
  users := [{user_id := 7, tier := "premium", premium_until := some 5000}] }

def ev_c10 : Event :=
  {id := "evt_c10", type := "customer.subscription.deleted",
   obj := {objId := some "sC10"}}

/-- Second delivery reusing `evt_c4`'s id with an entirely different
payload body and type. -/
def ev_c4 : Event :=
  {id := "evt_c4", type := "customer.subscription.updated",
   obj := {objId := some "sC2"}}

def ev_c4b : Event :=
  {id := "evt_c4", type := "invoice.payment_succeeded",
   obj := {subscription := some "sC2", client_reference_id := .num 99}}

/-! ### Helper lemmas -/

/-- Updating the tier/expiry of the rows keyed `uid` commutes with
looking that key up. -/
theorem find?_users_update (l : List UserRow) (uid : Int) (t' : String)
    (pu : Option Int) :
    (l.map (fun r => if r.user_id == uid then
        {r with tier := t', premium_until := pu} else r)).find? (·.user_id == uid)
      = (l.find? (·.user_id == uid)).map
          (fun r => if r.user_id == uid then
            {r with tier := t', premium_until := pu} else r) := by
  rw [List.find?_map]
  have hpf : ((fun x : UserRow => x.user_id == uid) ∘
      (fun r => if r.user_id == uid then
        {r with tier := t', premium_until := pu} else r))
      = (fun x : UserRow => x.user_id == uid) := by
    funext r
    simp only [Function.comp_apply]
    split <;> rfl
  rw [hpf]

/-- The row update of `mark_event_processed` commutes with any `event_id`
search. -/
theorem any_events_stamp (l : List EventRow) (i j : String) (now : Int) :
    ((l.map (fun r => if r.event_id == i then
        {r with processed_at := some now} else r)).any (·.event_id == j))
      = l.any (·.event_id == j) := by
  rw [List.any_map]
  have hpf : ((fun x : EventRow => x.event_id == j) ∘
      (fun r => if r.event_id == i then {r with processed_at := some now} else r))
      = (fun x : EventRow => x.event_id == j) := by
    funext r
    simp only [Function.comp_apply]
    split <;> rfl
  rw [hpf]

/-- The row update of `mark_event_processed` commutes with looking up the
stamped key. -/
theorem find?_events_stamp (l : List EventRow) (i : String) (now : Int) :
    ((l.map (fun r => if r.event_id == i then
        {r with processed_at := some now} else r)).find? (·.event_id == i))
      = (l.find? (·.event_id == i)).map
          (fun r => if r.event_id == i then
            {r with processed_at := some now} else r) := by
  rw [List.find?_map]
  have hpf : ((fun x : EventRow => x.event_id == i) ∘
      (fun r => if r.event_id == i then {r with processed_at := some now} else r))
      = (fun x : EventRow => x.event_id == i) := by
    funext r
    simp only [Function.comp_apply]
    split <;> rfl
  rw [hpf]

theorem ensure_user_events (db : DB) (u : Int) :
    (ensure_user db u).events = db.events := by
  unfold ensure_user; split <;> rfl

theorem ensure_user_subs (db : DB) (u : Int) :
    (ensure_user db u).subs = db.subs := by
  unfold ensure_user; split <;> rfl

theorem set_premium_events (db : DB) (u : Int) (t : Option Int) (now : Int)
    (s a : String) : (set_premium db u t now s a).events = db.events := by
  unfold set_premium
  simp [ensure_user_events]

theorem set_free_events (db : DB) (u : Int) (s r : String) :
    (set_free db u s r).events = db.events := rfl

theorem upsert_stripe_customer_events (db : DB) (u : Int) (c : String) :
    (upsert_stripe_customer db u c).events = db.events := by
  unfold upsert_stripe_customer; split <;> rfl

theorem upsert_stripe_customer_users (db : DB) (u : Int) (c : String) :
    (upsert_stripe_customer db u c).users = db.users := by
  unfold upsert_stripe_customer; split <;> rfl

theorem upsert_stripe_customer_subs (db : DB) (u : Int) (c : String) :
    (upsert_stripe_customer db u c).subs = db.subs := by
  unfold upsert_stripe_customer; split <;> rfl

theorem upsert_sub_row_events (db : DB) (row : SubRow) :
    (upsert_sub_row db row).events = db.events := by
  unfold upsert_sub_row; split <;> rfl

theorem upsert_sub_row_users (db : DB) (row : SubRow) :
    (upsert_sub_row db row).users = db.users := by
  unfold upsert_sub_row; split <;> rfl

theorem upsert_stripe_subscription_events (db : DB) (u : Int) (sub : SubObj) :
    (upsert_stripe_subscription db u sub).db.events = db.events := by
  unfold upsert_stripe_subscription
  split
  · rfl
  · split
    · rfl
    · simp [PyResult.db, upsert_sub_row_events]

theorem upsert_stripe_subscription_users (db : DB) (u : Int) (sub : SubObj) :
    (upsert_stripe_subscription db u sub).db.users = db.users := by
  unfold upsert_stripe_subscription
  split
  · rfl
  · split
    · rfl
    · simp [PyResult.db, upsert_sub_row_users]

theorem mirror_customer_events (db : DB) (uid : Int) (c? : Option String) :
    (mirror_customer db uid c?).events = db.events := by
  unfold mirror_customer
  cases c? with
  | none => rfl
  | some c =>
    by_cases h : c = "" <;> simp [h, upsert_stripe_customer_events]

theorem mirror_customer_users (db : DB) (uid : Int) (c? : Option String) :
    (mirror_customer db uid c?).users = db.users := by
  unfold mirror_customer
  cases c? with
  | none => rfl
  | some c =>
    by_cases h : c = "" <;> simp [h, upsert_stripe_customer_users]

theorem sync_user_from_subscription_events (st : String → Option SubObj)
    (db : DB) (now : Int) (sid : Option String) (eu : Option Int) :
    (sync_user_from_subscription st db now sid eu).db.events = db.events := by
  cases sid with
  | none => rfl
  | some s =>
    cases hst : st s with
    | none => simp [sync_user_from_subscription, hst, PyResult.db]
    | some sub =>
      cases hpe : parse_ts sub.current_period_end with
      | error m => simp [sync_user_from_subscription, hst, hpe, PyResult.db]
      | ok u =>
        by_cases hpr : sub.priceId ≠ some PREMIUM_PRICE_ID
        · simp [sync_user_from_subscription, hst, hpe, hpr, PyResult.db]
        · cases hres : resolve_user_id db eu sub.metaUserId s with
          | none =>
            simp [sync_user_from_subscription, hst, hpe, hpr, hres, PyResult.db]
          | some uid =>
            have h3 := upsert_stripe_subscription_events
              (mirror_customer db uid sub.customer) uid sub
            rw [mirror_customer_events] at h3
            cases h2 : upsert_stripe_subscription
                (mirror_customer db uid sub.customer) uid sub with
            | exn db2 m =>
              rw [h2] at h3
              simp [sync_user_from_subscription, hst, hpe, hpr, hres, h2,
                PyResult.db] at h3 ⊢
              exact h3
            | ok db2 y =>
              rw [h2] at h3
              simp only [PyResult.db] at h3
              by_cases hact : sub.status = some "trialing" ∨
                  sub.status = some "active"
              · simp [sync_user_from_subscription, hst, hpe, hpr, hres, h2,
                  hact, PyResult.db, set_premium_events, h3]
              · simp [sync_user_from_subscription, hst, hpe, hpr, hres, h2,
                  hact, PyResult.db, h3]

theorem wrap_sync_events (st : String → Option SubObj) (db : DB) (now : Int)
    (sid : Option String) (eu : Option Int) :
    (wrap_sync st db now sid eu).db.events = db.events := by
  unfold wrap_sync
  have h0 := sync_user_from_subscription_events st db now sid eu
  cases h : sync_user_from_subscription st db now sid eu with
  | exn db2 m => rw [h] at h0; simpa [PyResult.db] using h0
  | ok db2 y => rw [h] at h0; simpa [PyResult.db] using h0

theorem handle_subscription_deleted_events (st : String → Option SubObj)
    (db : DB) (now : Int) (objId : Option String) :
    (handle_subscription_deleted st db now objId).db.events = db.events := by
  unfold handle_subscription_deleted
  have h0 := sync_user_from_subscription_events st db now objId none
  cases h : sync_user_from_subscription st db now objId none with
  | exn db2 m => rw [h] at h0; simpa [PyResult.db] using h0
  | ok db2 uid0 =>
    rw [h] at h0; simp only [PyResult.db] at h0
    dsimp only
    cases hf : fallback_uid db2 objId uid0 with
    | some u => simp [PyResult.db, set_free_events, h0]
    | none => simpa [PyResult.db] using h0

theorem process_event_events (st : String → Option SubObj) (db : DB)
    (now : Int) (ev : Event) :
    (process_event st db now ev).db.events = db.events := by
  unfold process_event handle_subscription_updated
  by_cases h1 : ev.type = "checkout.session.completed"
  · simp only [if_pos h1]
    by_cases h2 : ev.obj.mode = some "subscription"
    · simp only [if_pos h2]
      by_cases h3 : checkout_price_id st ev.obj.subscription
          ≠ some PREMIUM_PRICE_ID
      · simp only [if_pos h3]; rfl
      · simp only [if_neg h3]; exact wrap_sync_events st db now _ _
    · simp only [if_neg h2]; rfl
  · simp only [if_neg h1]
    by_cases h2 : ev.type = "invoice.payment_succeeded"
    · simp only [if_pos h2]
      cases hsub : ev.obj.subscription with
      | none => rfl
      | some s =>
        by_cases h3 : s = ""
        · simp only [if_pos h3]; rfl
        · simp only [if_neg h3]; exact wrap_sync_events st db now _ _
    · simp only [if_neg h2]
      by_cases h3 : ev.type = "invoice.payment_failed"
      · simp only [if_pos h3]
        cases hsub : ev.obj.subscription with
        | none => rfl
        | some s =>
          by_cases h4 : s = ""
          · simp only [if_pos h4]; rfl
          · simp only [if_neg h4]; exact wrap_sync_events st db now _ _
      · simp only [if_neg h3]
        by_cases h4 : ev.type = "customer.subscription.updated"
        · simp only [if_pos h4]; exact wrap_sync_events st db now _ _
        · simp only [if_neg h4]
          by_cases h5 : ev.type = "customer.subscription.deleted"
          · simp only [if_pos h5]
            exact handle_subscription_deleted_events st db now _
          · simp only [if_neg h5]; rfl

theorem mark_event_processed_any (db : DB) (i j : String) (now : Int) :
    ((mark_event_processed db i now).events.any (·.event_id == j))
      = db.events.any (·.event_id == j) := by
  unfold mark_event_processed
  exact any_events_stamp db.events i j now

theorem mark_event_processed_length (db : DB) (i : String) (now : Int) :
    (mark_event_processed db i now).events.length = db.events.length := by
  unfold mark_event_processed
  exact List.length_map _ _

theorem mark_event_processed_users (db : DB) (i : String) (now : Int) :
    (mark_event_processed db i now).users = db.users := rfl

/-- Once admitted, the event id stays in the ledger whatever the handler
does: the per-call commits of `upsert_event` are never undone. -/
theorem stripe_webhook_keeps_event (st : String → Option SubObj) (db : DB)
    (now : Int) (ev : Event) :
    ((stripe_webhook st db now (.ok ev)).1.events.any (·.event_id == ev.id))
      = true := by
  unfold stripe_webhook upsert_event
  by_cases hdup : db.events.any (·.event_id == ev.id)
  · simp [hdup]
  · simp only [hdup, Bool.false_eq_true, if_neg, if_false]
    have hpe := process_event_events st
      {db with events := db.events ++
        [{event_id := ev.id, event_type := ev.type,
          payload := ev.obj, processed_at := none}]} now ev
    cases hp : process_event st
        {db with events := db.events ++
          [{event_id := ev.id, event_type := ev.type,
            payload := ev.obj, processed_at := none}]} now ev with
    | ok db2 y =>
      rw [hp] at hpe; simp only [PyResult.db] at hpe
      simp [mark_event_processed_any, hpe, List.any_append]
    | exn db2 m =>
      rw [hp] at hpe; simp only [PyResult.db] at hpe
      simp [mark_event_processed_any, hpe, List.any_append]

/-- A delivery whose event id is already in the ledger is acknowledged as
a duplicate with the database untouched. -/
theorem stripe_webhook_duplicate (st : String → Option SubObj) (db : DB)
    (now : Int) (ev : Event)
    (hdup : db.events.any (·.event_id == ev.id) = true) :
    stripe_webhook st db now (.ok ev) = (db, .okDedup) := by
  unfold stripe_webhook upsert_event
  simp [hdup]

theorem ensure_user_find?_isSome (db : DB) (uid : Int) :
    ((ensure_user db uid).users.find? (·.user_id == uid)).isSome = true := by
  unfold ensure_user
  split
  · next h =>
    rw [List.find?_isSome]
    exact List.any_eq_true.mp h
  · rw [List.find?_isSome]
    refine ⟨{user_id := uid, tier := "free", premium_until := none}, ?_, by simp⟩
    exact List.mem_append_right _ (List.mem_singleton.mpr rfl)

theorem set_premium_userTier (db : DB) (uid : Int) (t : Option Int)
    (now : Int) (s a : String) :
    userTier (set_premium db uid t now s a) uid = some "premium" := by
  unfold userTier set_premium
  simp only
  rw [find?_users_update]
  obtain ⟨r, hr⟩ := Option.isSome_iff_exists.mp (ensure_user_find?_isSome db uid)
  rw [hr]
  have hp := List.find?_some hr
  simp [eq_of_beq hp]

theorem set_premium_userUntil (db : DB) (uid : Int) (t : Option Int)
    (now : Int) (s a : String) :
    userUntil (set_premium db uid t now s a) uid = some (some (t.getD now)) := by
  unfold userUntil set_premium
  simp only
  rw [find?_users_update]
  obtain ⟨r, hr⟩ := Option.isSome_iff_exists.mp (ensure_user_find?_isSome db uid)
  rw [hr]
  have hp := List.find?_some hr
  simp [eq_of_beq hp]

theorem set_free_userTier (db : DB) (uid : Int) (s r : String) :
    userTier (set_free db uid s r) uid
      = (userTier db uid).map (fun _ => "free") := by
  unfold userTier set_free
  simp only
  rw [find?_users_update]
  cases hr : db.users.find? (·.user_id == uid) with
  | none => rfl
  | some w =>
    have hp := List.find?_some hr
    simp [eq_of_beq hp]

theorem set_free_userUntil (db : DB) (uid : Int) (s r : String) :
    userUntil (set_free db uid s r) uid
      = (userUntil db uid).map (fun _ => none) := by
  unfold userUntil set_free
  simp only
  rw [find?_users_update]
  cases hr : db.users.find? (·.user_id == uid) with
  | none => rfl
  | some w =>
    have hp := List.find?_some hr
    simp [eq_of_beq hp]

/-- When the subscription's status is neither `trialing` nor `active`,
`sync_user_from_subscription` never calls `set_premium`, so the `users`
table is untouched on every path (lines 192-196). -/
theorem sync_users_of_non_active (st : String → Option SubObj) (db : DB)
    (now : Int) (s : String) (eu : Option Int) (sub : SubObj)
    (hst : st s = some sub)
    (hna : ¬(sub.status = some "trialing" ∨ sub.status = some "active")) :
    (sync_user_from_subscription st db now (some s) eu).db.users
      = db.users := by
  cases hpe : parse_ts sub.current_period_end with
  | error m => simp [sync_user_from_subscription, hst, hpe, PyResult.db]
  | ok u =>
    by_cases hpr : sub.priceId ≠ some PREMIUM_PRICE_ID
    · simp [sync_user_from_subscription, hst, hpe, hpr, PyResult.db]
    · cases hres : resolve_user_id db eu sub.metaUserId s with
      | none =>
        simp [sync_user_from_subscription, hst, hpe, hpr, hres, PyResult.db]
      | some uid =>
        have h3 := upsert_stripe_subscription_users
          (mirror_customer db uid sub.customer) uid sub
        rw [mirror_customer_users] at h3
        cases h2 : upsert_stripe_subscription
            (mirror_customer db uid sub.customer) uid sub with
        | exn db2 m =>
          rw [h2] at h3
          simp [sync_user_from_subscription, hst, hpe, hpr, hres, h2,
            PyResult.db] at h3 ⊢
          exact h3
        | ok db2 y =>
          rw [h2] at h3
          simp only [PyResult.db] at h3
          simp [sync_user_from_subscription, hst, hpe, hpr, hres, h2, hna,
            PyResult.db, h3]

theorem wrap_sync_users_of_non_active (st : String → Option SubObj) (db : DB)
    (now : Int) (s : String) (eu : Option Int) (sub : SubObj)
    (hst : st s = some sub)
    (hna : ¬(sub.status = some "trialing" ∨ sub.status = some "active")) :
    (wrap_sync st db now (some s) eu).db.users = db.users := by
  unfold wrap_sync
  have h0 := sync_users_of_non_active st db now s eu sub hst hna
  cases h : sync_user_from_subscription st db now (some s) eu with
  | exn db2 m => rw [h] at h0; simpa [PyResult.db] using h0
  | ok db2 y => rw [h] at h0; simpa [PyResult.db] using h0

/-- On a `customer.subscription.updated` event the dispatch reaches the
update arm. -/
theorem process_event_updated (st : String → Option SubObj) (db : DB)
    (now : Int) (ev : Event)
    (htype : ev.type = "customer.subscription.updated") :
    process_event st db now ev = wrap_sync st db now ev.obj.objId none := by
  unfold process_event handle_subscription_updated
  rw [htype]
  rw [if_neg (by decide), if_neg (by decide), if_neg (by decide), if_pos rfl]

/-- On a `customer.subscription.deleted` event the dispatch reaches the
delete arm. -/
theorem process_event_deleted (st : String → Option SubObj) (db : DB)
    (now : Int) (ev : Event)
    (htype : ev.type = "customer.subscription.deleted") :
    process_event st db now ev
      = handle_subscription_deleted st db now ev.obj.objId := by
  unfold process_event
  rw [htype]
  rw [if_neg (by decide), if_neg (by decide), if_neg (by decide),
    if_neg (by decide), if_pos rfl]

theorem mark_event_processed_find? (db : DB) (i : String) (now : Int) :
    (mark_event_processed db i now).events.find? (·.event_id == i)
      = (db.events.find? (·.event_id == i)).map
          (fun r => if r.event_id == i then
            {r with processed_at := some now} else r) := by
  unfold mark_event_processed
  exact find?_events_stamp db.events i now

theorem fallback_uid_of_truthy (db : DB) (o : Option String) (u : Int)
    (hu : u ≠ 0) : fallback_uid db o (some u) = some u := by
  unfold fallback_uid truthyInt
  simp [hu]

theorem userTier_congr (db1 db2 : DB) (u : Int) (h : db1.users = db2.users) :
    userTier db1 u = userTier db2 u := by
  unfold userTier; rw [h]

theorem userUntil_congr (db1 db2 : DB) (u : Int) (h : db1.users = db2.users) :
    userUntil db1 u = userUntil db2 u := by
  unfold userUntil; rw [h]

/-- Admitting a fresh event only appends the ledger row. -/
theorem upsert_event_fresh (db : DB) (ev : Event)
    (hfresh : db.events.any (·.event_id == ev.id) = false) :
    upsert_event db ev.id ev.type ev.obj
      = ({db with events := db.events ++
          [{event_id := ev.id, event_type := ev.type,
            payload := ev.obj, processed_at := none}]}, true) := by
  unfold upsert_event
  rw [if_neg (by simp [hfresh])]

/-- Under pinned hypotheses — premium price, no user id in the payload or
metadata, non-active status, parses succeeding — sync resolves the user
from the stored `stripe_subscriptions` row and performs no `users`
write. -/
theorem sync_resolved_from_row (st : String → Option SubObj) (db : DB)
    (now : Int) (s : String) (sub : SubObj) (row : SubRow)
    (ucpe ucps : Option Int)
    (hst : st s = some sub)
    (hcpe : parse_ts sub.current_period_end = .ok ucpe)
    (hcps : parse_ts sub.current_period_start = .ok ucps)
    (hpr : sub.priceId = some PREMIUM_PRICE_ID)
    (hmeta : safe_int sub.metaUserId = none)
    (hrow : db.subs.find? (·.subscription_id == s) = some row)
    (hna : ¬(sub.status = some "trialing" ∨ sub.status = some "active")) :
    ∃ db2, sync_user_from_subscription st db now (some s) none
        = .ok db2 (some row.user_id) ∧ db2.users = db.users := by
  have hres : resolve_user_id db none sub.metaUserId s = some row.user_id := by
    unfold resolve_user_id pyOrInt
    rw [hmeta, hrow]
    rfl
  refine ⟨upsert_sub_row (mirror_customer db row.user_id sub.customer)
    {subscription_id := sub.id, user_id := row.user_id,
     price_id := sub.priceId, status := sub.status,
     current_period_start := ucps, current_period_end := ucpe,
     cancel_at_period_end := sub.cancel_at_period_end}, ?_, ?_⟩
  · unfold sync_user_from_subscription upsert_stripe_subscription
    simp only [hst, hcpe, hcps, hres]
    rw [if_neg (by simp [hpr]), if_neg hna]
  · rw [upsert_sub_row_users, mirror_customer_users]

/-- When a list has no element satisfying `p`, `find?` returns none. -/
theorem find?_eq_none_of_any_false {α : Type} (l : List α) (p : α → Bool)
    (h : l.any p = false) : l.find? p = none :=
  List.find?_eq_none.mpr (fun x hx hpx => by
    have := List.any_eq_true.mpr ⟨x, hx, hpx⟩
    rw [h] at this
    cases this)

/-! ### Claims -/

/-- C7 (counterexample): the claim says an ISO-8601 `"Z"` timestamp parses
to the equivalent UTC instant and an unparsable value yields null rather
than a failure; this code's parse is `datetime.fromtimestamp(v) if v else
None`, which raises `TypeError` on any non-empty string, so both parts
fail on concrete string inputs. -/
theorem C7_counterexample :
    parse_ts (.str "2025-01-02T03:04:05.678Z")
      = .error "TypeError: fromtimestamp expects a number, got str" ∧
    parse_ts (.str "not-a-timestamp")
      = .error "TypeError: fromtimestamp expects a number, got str" :=
  ⟨rfl, rfl⟩

/-- C7 (amended): timestamp parsing handles the numeric epoch-seconds
form (and Python-falsy values, which yield null), but any non-empty
string — ISO-8601 included — raises a `TypeError` instead of yielding
null. -/
theorem C7_amended :
    parse_ts .null = .ok none ∧
    (∀ n : Int, n ≠ 0 → parse_ts (.num n) = .ok (some n)) ∧
    parse_ts (.num 0) = .ok none ∧
    (∀ s : String, s ≠ "" → parse_ts (.str s)
      = .error "TypeError: fromtimestamp expects a number, got str") ∧
    parse_ts (.str "") = .ok none := by
  refine ⟨rfl, ?_, rfl, ?_, rfl⟩
  · intro n hn
    unfold parse_ts truthy fromtimestamp
    simp [hn, Except.map]
  · intro s hs
    unfold parse_ts truthy fromtimestamp
    simp [hs, Except.map]

/-- C7 (witness). -/
theorem C7_witness :
    parse_ts (.num 5) = .ok (some 5) ∧
    parse_ts (.str "2025-01-02T03:04:05.678Z")
      = .error "TypeError: fromtimestamp expects a number, got str" :=
  ⟨C7_amended.2.1 5 (by decide),
   C7_amended.2.2.2.1 "2025-01-02T03:04:05.678Z" (by decide)⟩

/-- C8: a delivery failing `stripe.Webhook.construct_event` — unparseable
body (`ValueError`) or bad/missing/stale signature
(`SignatureVerificationError`) — is answered 400 with the database state
returned exactly as it was: no ledger, row, or tier write has happened,
and the response is determined by the failure kind alone. -/
theorem C8_reject_before_any_write :
    ∀ (st : String → Option SubObj) (db : DB) (now : Int),
      stripe_webhook st db now (.error .valueError) = (db, .invalidPayload) ∧
      stripe_webhook st db now (.error .sigError) = (db, .invalidSignature) :=
  fun _ _ _ => ⟨rfl, rfl⟩

/-- C10 (counterexample): the claim says only premium-price subscriptions
affect tier; but a `customer.subscription.deleted` event for a
subscription whose current price is `price_other` still sets the stored
owner's tier to free through the handler's fallback lookup. -/
theorem C10_counterexample :
    userTier db_c10 7 = some "premium" ∧
    sub_c10.priceId ≠ some PREMIUM_PRICE_ID ∧
    userTier (stripe_webhook st_c10 db_c10 1000 (.ok ev_c10)).1 7
      = some "free" :=
  ⟨rfl, by decide, rfl⟩

/-- C10 (amended): `sync_user_from_subscription` itself does return null
for a non-premium price, leaving the database exactly unchanged (no
promotion, demotion, or audit row); the claim's final clause fails only
because the deleted arm afterwards demotes the stored owner through its
fallback lookup. -/
theorem C10_amended (st : String → Option SubObj) (db : DB) (now : Int)
    (s : String) (eu : Option Int) (sub : SubObj) (u : Option Int)
    (hst : st s = some sub)
    (hcpe : parse_ts sub.current_period_end = .ok u)
    (hpr : sub.priceId ≠ some PREMIUM_PRICE_ID) :
    sync_user_from_subscription st db now (some s) eu = .ok db none := by
  unfold sync_user_from_subscription
  simp only [hst, hcpe]
  rw [if_pos hpr]

/-- C10 (witness). -/
theorem C10_witness :
    sync_user_from_subscription st_c10 db_c10 1000 (some "sC10") none
      = .ok db_c10 none :=
  C10_amended st_c10 db_c10 1000 "sC10" none sub_c10 none rfl rfl (by decide)

/-- C2 (counterexample): the claim says a null event expiry stores a null
expiry ("no fixed expiry"); the code's `set_premium` replaces a `None`
expiry by `NOW()`, so an active update with null `current_period_end`
stores the processing time instead. -/
theorem C2_counterexample :
    userTier (stripe_webhook st_nullcpe DB.empty 1000 (.ok ev_nullcpe)).1 7
      = some "premium" ∧
    userUntil (stripe_webhook st_nullcpe DB.empty 1000 (.ok ev_nullcpe)).1 7
      = some (some 1000) ∧
    userUntil (stripe_webhook st_nullcpe DB.empty 1000 (.ok ev_nullcpe)).1 7
      ≠ some none :=
  ⟨rfl, rfl, by decide⟩

/-- C2 (amended): after a create/update whose resolved status is
`trialing`/`active`, the user's tier is premium and the stored expiry is
the event's resolved expiry when that is non-null, and the processing
time `now` when it is null — never null. -/
theorem C2_amended (st : String → Option SubObj) (db : DB) (now : Int)
    (s : String) (eu : Option Int) (sub : SubObj) (uid : Int)
    (u v : Option Int)
    (hst : st s = some sub)
    (hcpe : parse_ts sub.current_period_end = .ok u)
    (hcps : parse_ts sub.current_period_start = .ok v)
    (hpr : sub.priceId = some PREMIUM_PRICE_ID)
    (hres : resolve_user_id db eu sub.metaUserId s = some uid)
    (hact : sub.status = some "trialing" ∨ sub.status = some "active") :
    ∃ db2, sync_user_from_subscription st db now (some s) eu
        = .ok db2 (some uid) ∧
      userTier db2 uid = some "premium" ∧
      userUntil db2 uid = some (some (u.getD now)) := by
  refine ⟨set_premium (upsert_sub_row (mirror_customer db uid sub.customer)
      {subscription_id := sub.id, user_id := uid, price_id := sub.priceId,
       status := sub.status, current_period_start := v,
       current_period_end := u,
       cancel_at_period_end := sub.cancel_at_period_end})
      uid u now "stripe" "sync", ?_,
    set_premium_userTier _ _ _ _ _ _, set_premium_userUntil _ _ _ _ _ _⟩
  unfold sync_user_from_subscription upsert_stripe_subscription
  simp only [hst, hcpe, hcps, hres]
  rw [if_neg (by simp [hpr]), if_pos hact]

/-- C2 (witness). -/
theorem C2_witness :
    ∃ db2, sync_user_from_subscription st_act DB.empty 1000 (some "sC2") none
        = .ok db2 (some 7) ∧
      userTier db2 7 = some "premium" ∧
      userUntil db2 7 = some (some 2000) := by
  have h := C2_amended st_act DB.empty 1000 "sC2" none sub_act 7
    (some 2000) (some 10) rfl rfl rfl rfl rfl (Or.inr rfl)
  simpa using h

/-- C1 (counterexample): user 7 holds two entitlements (`s1`, `s2`), both
active with future expiries; deleting `s1` nevertheless demotes user 7 to
free even though `s2` still qualifies (the spec-level
`hasActiveEntitlement` predicate is still true afterwards). -/
theorem C1_counterexample :
    (stripe_webhook st_c1 db_c1 1000 (.ok ev_c1)).2 = .okAck ∧
    spec_hasActiveEntitlement (stripe_webhook st_c1 db_c1 1000 (.ok ev_c1)).1
      7 1000 = true ∧
    userTier (stripe_webhook st_c1 db_c1 1000 (.ok ev_c1)).1 7
      = some "free" ∧
    userUntil (stripe_webhook st_c1 db_c1 1000 (.ok ev_c1)).1 7
      = some none :=
  ⟨rfl, rfl, rfl, rfl⟩

/-- C1 (amended): the deleted arm demotes unconditionally: whenever it
resolves a truthy user id, that user's row (when one exists) ends free
with null expiry, with no check of remaining active entitlements; only a
revocation update (which never touches the tier) leaves a multi-grant
user premium. -/
theorem C1_amended (st : String → Option SubObj) (db : DB) (now : Int)
    (objId : Option String) (u : Int)
    (hu : deleted_resolved_uid st db now objId = some u) :
    userTier (handle_subscription_deleted st db now objId).db u = none ∨
    (userTier (handle_subscription_deleted st db now objId).db u
        = some "free" ∧
     userUntil (handle_subscription_deleted st db now objId).db u
        = some none) := by
  unfold deleted_resolved_uid at hu
  unfold handle_subscription_deleted
  cases h : sync_user_from_subscription st db now objId none with
  | exn db2 m =>
    rw [h] at hu
    simp at hu
  | ok db2 uid0 =>
    rw [h] at hu
    dsimp only at hu ⊢
    rw [hu]
    dsimp only [PyResult.db]
    cases hf2 : db2.users.find? (·.user_id == u) with
    | none =>
      left
      rw [set_free_userTier]
      unfold userTier
      rw [hf2]
      rfl
    | some w =>
      right
      constructor
      · rw [set_free_userTier]
        unfold userTier
        rw [hf2]
        rfl
      · rw [set_free_userUntil]
        unfold userUntil
        rw [hf2]
        rfl

/-- C1 (witness). -/
theorem C1_witness :
    userTier (handle_subscription_deleted st_c1 db_c1 1000 (some "s1")).db 7
      = none ∨
    (userTier (handle_subscription_deleted st_c1 db_c1 1000 (some "s1")).db 7
        = some "free" ∧
     userUntil (handle_subscription_deleted st_c1 db_c1 1000 (some "s1")).db 7
        = some none) :=
  C1_amended st_c1 db_c1 1000 (some "s1") 7 rfl

/-- C5 (counterexample): a revoked (`canceled`) update for the user's
only entitlement leaves the tier premium even though no active
entitlement remains afterwards — the code never calls any
`hasActiveEntitlement` check and never demotes on update events,
contradicting "if none remains the user's tier is set to free". -/
theorem C5_counterexample :
    (stripe_webhook st_c5 db_c5 1000 (.ok ev_c5)).2 = .okAck ∧
    spec_hasActiveEntitlement (stripe_webhook st_c5 db_c5 1000 (.ok ev_c5)).1
      7 1000 = false ∧
    userTier (stripe_webhook st_c5 db_c5 1000 (.ok ev_c5)).1 7
      = some "premium" ∧
    userUntil (stripe_webhook st_c5 db_c5 1000 (.ok ev_c5)).1 7
      = some (some 5000) :=
  ⟨rfl, rfl, rfl, rfl⟩

/-- C5 (amended): an update event whose resolved status is not
`trialing`/`active` never touches the `users` table at all: there is no
`hasActiveEntitlement` check, and the tier is left untouched whether or
not an active entitlement remains. -/
theorem C5_amended (st : String → Option SubObj) (db : DB) (now : Int)
    (ev : Event) (s : String) (sub : SubObj)
    (htype : ev.type = "customer.subscription.updated")
    (hobj : ev.obj.objId = some s)
    (hst : st s = some sub)
    (hna : ¬(sub.status = some "trialing" ∨ sub.status = some "active")) :
    (stripe_webhook st db now (.ok ev)).1.users = db.users := by
  by_cases hdup : db.events.any (·.event_id == ev.id) = true
  · rw [stripe_webhook_duplicate st db now ev hdup]
  · unfold stripe_webhook
    dsimp only
    rw [upsert_event_fresh db ev (by simpa using hdup)]
    dsimp only
    rw [process_event_updated st _ now ev htype, hobj]
    have hw := wrap_sync_users_of_non_active st
      {db with events := db.events ++
        [{event_id := ev.id, event_type := ev.type,
          payload := ev.obj, processed_at := none}]} now s none sub hst hna
    cases h2 : wrap_sync st
        {db with events := db.events ++
          [{event_id := ev.id, event_type := ev.type,
            payload := ev.obj, processed_at := none}]} now (some s) none with
    | ok db2 y =>
      rw [h2] at hw
      simp only [PyResult.db] at hw
      dsimp only
      rw [mark_event_processed_users]
      exact hw
    | exn db2 m =>
      rw [h2] at hw
      simp only [PyResult.db] at hw
      dsimp only
      rw [mark_event_processed_users]
      exact hw

/-- C5 (witness). -/
theorem C5_witness :
    (stripe_webhook st_c5 db_c5 1000 (.ok ev_c5)).1.users = db_c5.users :=
  C5_amended st_c5 db_c5 1000 ev_c5 "sC5" sub_c5 rfl rfl rfl (by decide)

/-- C9: a deleted event whose payload and subscription metadata carry no
user id still demotes the correct user: inside sync the owning id is
resolved from the stored `stripe_subscriptions` row (looked up by the
subscription id while that row is still present), and `set_free` is then
applied to that user, whose row ends free with null expiry. -/
theorem C9_delete_missing_user_id (st : String → Option SubObj) (db : DB)
    (now : Int) (ev : Event) (s : String) (sub : SubObj) (row : SubRow)
    (ucpe ucps : Option Int)
    (htype : ev.type = "customer.subscription.deleted")
    (hobj : ev.obj.objId = some s)
    (hfresh : db.events.any (·.event_id == ev.id) = false)
    (hst : st s = some sub)
    (hcpe : parse_ts sub.current_period_end = .ok ucpe)
    (hcps : parse_ts sub.current_period_start = .ok ucps)
    (hpr : sub.priceId = some PREMIUM_PRICE_ID)
    (hmeta : safe_int sub.metaUserId = none)
    (hrow : db.subs.find? (·.subscription_id == s) = some row)
    (hna : ¬(sub.status = some "trialing" ∨ sub.status = some "active"))
    (hu0 : row.user_id ≠ 0)
    (huser : userTier db row.user_id = some "premium") :
    userTier (stripe_webhook st db now (.ok ev)).1 row.user_id
      = some "free" ∧
    userUntil (stripe_webhook st db now (.ok ev)).1 row.user_id
      = some none := by
  unfold stripe_webhook
  dsimp only
  rw [upsert_event_fresh db ev hfresh]
  dsimp only
  rw [process_event_deleted st _ now ev htype, hobj]
  have hrowE : ({db with events := db.events ++
      [{event_id := ev.id, event_type := ev.type,
        payload := ev.obj, processed_at := none}]} : DB).subs.find?
      (·.subscription_id == s) = some row := hrow
  obtain ⟨db2, hsync, husers2⟩ := sync_resolved_from_row st
    {db with events := db.events ++
      [{event_id := ev.id, event_type := ev.type,
        payload := ev.obj, processed_at := none}]} now s sub row ucpe ucps
    hst hcpe hcps hpr hmeta hrowE hna
  unfold handle_subscription_deleted
  rw [hsync]
  dsimp only
  rw [fallback_uid_of_truthy db2 (some s) row.user_id hu0]
  dsimp only
  have ht2 : userTier db2 row.user_id = some "premium" := by
    rw [userTier_congr db2 db row.user_id (by rw [husers2])]
    exact huser
  obtain ⟨w, hw⟩ : ∃ w, db2.users.find? (·.user_id == row.user_id)
      = some w := by
    unfold userTier at ht2
    cases hf : db2.users.find? (·.user_id == row.user_id) with
    | none => rw [hf] at ht2; exact absurd ht2 (by simp)
    | some w => exact ⟨w, rfl⟩
  constructor
  · rw [userTier_congr _
      (set_free db2 row.user_id "stripe" "subscription_deleted") _
      (mark_event_processed_users _ _ _)]
    rw [set_free_userTier, ht2]
    rfl
  · rw [userUntil_congr _
      (set_free db2 row.user_id "stripe" "subscription_deleted") _
      (mark_event_processed_users _ _ _)]
    rw [set_free_userUntil]
    unfold userUntil
    rw [hw]
    rfl

/-- C9 (witness). -/
theorem C9_witness :
    userTier (stripe_webhook st_c9 db_c9 1000 (.ok ev_c9)).1 7
      = some "free" ∧
    userUntil (stripe_webhook st_c9 db_c9 1000 (.ok ev_c9)).1 7
      = some none :=
  C9_delete_missing_user_id st_c9 db_c9 1000 ev_c9 "sC9" sub_c9 row_c9
    none none rfl rfl rfl rfl rfl rfl rfl rfl rfl (by decide) (by decide) rfl

/-- C3 (counterexample): a mid-envelope failure (the subscription's
`current_period_start` is a non-numeric string, so
`datetime.fromtimestamp` raises inside `upsert_stripe_subscription`)
leaves the dedup-ledger insert and the customer upsert committed while
the subscription row and the tier write never happened — not an
all-or-nothing transaction. -/
theorem C3_counterexample :
    (stripe_webhook st_badcps DB.empty 1000 (.ok ev_badcps)).2
      = .serverError ∧
    (stripe_webhook st_badcps DB.empty 1000 (.ok ev_badcps)).1.customers
      = [(7, "cus_1")] ∧
    (stripe_webhook st_badcps DB.empty 1000 (.ok ev_badcps)).1.subs = [] ∧
    (stripe_webhook st_badcps DB.empty 1000 (.ok ev_badcps)).1.events.length
      = 1 ∧
    (stripe_webhook st_badcps DB.empty 1000 (.ok ev_badcps)).1 ≠ DB.empty :=
  ⟨rfl, rfl, rfl, rfl, by decide⟩

/-- C3 (amended): every helper commits on its own connection; when
processing an admitted envelope fails, the response is a 500 but the
dedup-ledger insert persists — the ledger grows by exactly one row and
still contains the event id, instead of being rolled back. -/
theorem C3_amended (st : String → Option SubObj) (db db' : DB) (now : Int)
    (ev : Event)
    (h : stripe_webhook st db now (.ok ev) = (db', .serverError)) :
    db'.events.any (·.event_id == ev.id) = true ∧
    db'.events.length = db.events.length + 1 := by
  by_cases hdup : db.events.any (·.event_id == ev.id) = true
  · rw [stripe_webhook_duplicate st db now ev hdup] at h
    exact absurd (congrArg Prod.snd h) (by simp)
  · unfold stripe_webhook at h
    dsimp only at h
    rw [upsert_event_fresh db ev (by simpa using hdup)] at h
    dsimp only at h
    have hpe := process_event_events st
      {db with events := db.events ++
        [{event_id := ev.id, event_type := ev.type,
          payload := ev.obj, processed_at := none}]} now ev
    cases hp : process_event st
        {db with events := db.events ++
          [{event_id := ev.id, event_type := ev.type,
            payload := ev.obj, processed_at := none}]} now ev with
    | ok db2 y =>
      rw [hp] at h
      dsimp only at h
      exact absurd (congrArg Prod.snd h) (by simp)
    | exn db2 m =>
      rw [hp] at h
      dsimp only at h
      rw [hp] at hpe
      simp only [PyResult.db] at hpe
      have hdb' : db' = mark_event_processed db2 ev.id now :=
        (congrArg Prod.fst h).symm
      constructor
      · rw [hdb', mark_event_processed_any, hpe]
        simp [List.any_append]
      · rw [hdb', mark_event_processed_length, hpe]
        simp

/-- C3 (witness). -/
theorem C3_witness :
    (stripe_webhook st_badcps DB.empty 1000 (.ok ev_badcps)).1.events.any
      (·.event_id == ev_badcps.id) = true ∧
    (stripe_webhook st_badcps DB.empty 1000 (.ok ev_badcps)).1.events.length
      = DB.empty.events.length + 1 :=
  C3_amended st_badcps DB.empty
    (stripe_webhook st_badcps DB.empty 1000 (.ok ev_badcps)).1 1000
    ev_badcps rfl

/-- C6 (counterexample): the completion stamp sits in a `finally:` block,
so a failing event is still stamped: here processing raised (the response
is the 500), yet the ledger row's `processed_at` is set. -/
theorem C6_counterexample :
    (stripe_webhook st_badcps DB.empty 1000 (.ok ev_badcps6)).2
      = .serverError ∧
    ((stripe_webhook st_badcps DB.empty 1000 (.ok ev_badcps6)).1.events.find?
        (·.event_id == "evt_c6")).map (·.processed_at)
      = some (some 1000) :=
  ⟨rfl, rfl⟩

/-- C6 (amended): for every admitted event, whether its processing
succeeds or raises, `processed_at` is stamped with the processing time by
the `finally:` block — it is not reserved for successful reconciliation. -/
theorem C6_amended (st : String → Option SubObj) (db : DB) (now : Int)
    (ev : Event)
    (hfresh : db.events.any (·.event_id == ev.id) = false) :
    ((stripe_webhook st db now (.ok ev)).1.events.find?
        (·.event_id == ev.id)).map (·.processed_at) = some (some now) := by
  unfold stripe_webhook
  dsimp only
  rw [upsert_event_fresh db ev hfresh]
  dsimp only
  have hpe := process_event_events st
    {db with events := db.events ++
      [{event_id := ev.id, event_type := ev.type,
        payload := ev.obj, processed_at := none}]} now ev
  have hfind : ({db with events := db.events ++
      [{event_id := ev.id, event_type := ev.type,
        payload := ev.obj, processed_at := none}]} : DB).events.find?
      (·.event_id == ev.id)
      = some {event_id := ev.id, event_type := ev.type,
              payload := ev.obj, processed_at := none} := by
    dsimp only
    rw [List.find?_append, find?_eq_none_of_any_false db.events _ hfresh]
    simp [List.find?]
  cases hp : process_event st
      {db with events := db.events ++
        [{event_id := ev.id, event_type := ev.type,
          payload := ev.obj, processed_at := none}]} now ev with
  | ok db2 y =>
    rw [hp] at hpe
    simp only [PyResult.db] at hpe
    dsimp only
    rw [mark_event_processed_find?, hpe, hfind]
    simp
  | exn db2 m =>
    rw [hp] at hpe
    simp only [PyResult.db] at hpe
    dsimp only
    rw [mark_event_processed_find?, hpe, hfind]
    simp

/-- C6 (witness). -/
theorem C6_witness :
    ((stripe_webhook st_badcps DB.empty 1000 (.ok ev_badcps6)).1.events.find?
        (·.event_id == ev_badcps6.id)).map (·.processed_at)
      = some (some 1000) :=
  C6_amended st_badcps DB.empty 1000 ev_badcps6 rfl

/-- C4: the dedup gate: the conditional insert returns new exactly on the
first delivery of an event id; a second delivery reusing that id — with
any payload body, any Stripe state, any processing time — is acknowledged
as a duplicate with the database returned untouched, and replaying it any
number of times is the identity on the database state. -/
theorem C4_dedup_gate (st st2 : String → Option SubObj) (db : DB)
    (now now2 : Int) (ev ev2 : Event) (n : Nat)
    (hid : ev2.id = ev.id)
    (hfresh : db.events.any (·.event_id == ev.id) = false) :
    (upsert_event db ev.id ev.type ev.obj).2 = true ∧
    stripe_webhook st2 (stripe_webhook st db now (.ok ev)).1 now2 (.ok ev2)
      = ((stripe_webhook st db now (.ok ev)).1, .okDedup) ∧
    Nat.iterate (fun d => (stripe_webhook st2 d now2 (.ok ev2)).1) n
        (stripe_webhook st db now (.ok ev)).1
      = (stripe_webhook st db now (.ok ev)).1 := by
  have hmem : ((stripe_webhook st db now (.ok ev)).1.events.any
      (·.event_id == ev2.id)) = true := by
    rw [hid]
    exact stripe_webhook_keeps_event st db now ev
  have hdup := stripe_webhook_duplicate st2
    (stripe_webhook st db now (.ok ev)).1 now2 ev2 hmem
  refine ⟨?_, hdup, ?_⟩
  · rw [upsert_event_fresh db ev hfresh]
  · induction n with
    | zero => rfl
    | succ k ih =>
      rw [Function.iterate_succ_apply']
      rw [ih]
      simp only [hdup]

/-- C4 (witness). -/
theorem C4_witness :
    (upsert_event DB.empty ev_c4.id ev_c4.type ev_c4.obj).2 = true ∧
    stripe_webhook st_act (stripe_webhook st_act DB.empty 1000 (.ok ev_c4)).1
        2000 (.ok ev_c4b)
      = ((stripe_webhook st_act DB.empty 1000 (.ok ev_c4)).1, .okDedup) ∧
    Nat.iterate (fun d => (stripe_webhook st_act d 2000 (.ok ev_c4b)).1) 3
        (stripe_webhook st_act DB.empty 1000 (.ok ev_c4)).1
      = (stripe_webhook st_act DB.empty 1000 (.ok ev_c4)).1 :=
  C4_dedup_gate st_act st_act DB.empty 1000 2000 ev_c4 ev_c4b 3 rfl rfl

end BubuWebhook
